import Mathlib

/-!
Verification development for the NEURALROOTSAI multi-stage freshness pipeline.

The definitions below are a shallow embedding of the Python sources under
backend/app/agents/ (logistics_agent.py, market_agent.py,
workflow_orchestrator.py, freshness_agent.py).  Python floats are modelled
as rationals, Python dictionaries with possibly-missing keys as structures
with Option fields (dict.get with a default becomes Option.getD), and a
Python exception as the none case of an Option or the error case of an
Except.  Displayed strings produced with numeric f-string formatting are
modelled as tagged values carrying the formatted number.
-/

namespace NeuralRoots

/-- Rounding to the nearest integer with ties going to the even integer,
the rounding mode of Python round(). -/
def roundHalfEven (q : ℚ) : ℤ :=
  let n := ⌊q⌋
  let r := q - n
  if r < 1/2 then n
  else if 1/2 < r then n + 1
  else if n % 2 = 0 then n else n + 1

/-- Model of Python round(x, 2). -/
def pyRound2 (q : ℚ) : ℚ := (roundHalfEven (q * 100) : ℚ) / 100

/-- Model of Python round(x, 1). -/
def pyRound1 (q : ℚ) : ℚ := (roundHalfEven (q * 10) : ℚ) / 10

theorem floor_le_roundHalfEven (q : ℚ) : ⌊q⌋ ≤ roundHalfEven q := by
  unfold roundHalfEven
  dsimp only
  split
  · exact le_refl _
  · split
    · exact le_of_lt (lt_add_one _)
    · split
      · exact le_refl _
      · exact le_of_lt (lt_add_one _)

theorem roundHalfEven_le_ceil (q : ℚ) : roundHalfEven q ≤ ⌈q⌉ := by
  unfold roundHalfEven
  dsimp only
  have hfc : ⌊q⌋ ≤ ⌈q⌉ := Int.floor_le_ceil q
  have hlt : (1:ℚ)/2 ≤ q - ⌊q⌋ → ⌊q⌋ + 1 ≤ ⌈q⌉ := by
    intro h
    have h0 : (⌊q⌋ : ℚ) < q := by
      have : (0:ℚ) < 1/2 := by norm_num
      linarith
    have := Int.lt_ceil.mpr h0
    omega
  split
  · exact hfc
  · split
    next h1 h2 => exact hlt (le_of_lt h2)
    · split
      · exact hfc
      next h1 h2 h3 =>
        have : (1:ℚ)/2 ≤ q - ⌊q⌋ := le_of_not_lt h1
        exact hlt this

theorem pyRound2_nonneg {q : ℚ} (h : 0 ≤ q) : 0 ≤ pyRound2 q := by
  unfold pyRound2
  have h1 : (0:ℤ) ≤ ⌊q * 100⌋ := Int.floor_nonneg.mpr (by positivity)
  have h2 := floor_le_roundHalfEven (q * 100)
  have : (0:ℤ) ≤ roundHalfEven (q * 100) := le_trans h1 h2
  positivity

/-- Rounding a value at most 100 yields at most 100. -/
theorem pyRound2_le_hundred {q : ℚ} (h : q ≤ 100) : pyRound2 q ≤ 100 := by
  unfold pyRound2
  have h1 := roundHalfEven_le_ceil (q * 100)
  have h2 : ⌈q * 100⌉ ≤ ⌈(10000 : ℚ)⌉ := Int.ceil_le_ceil (by nlinarith)
  have h3 : (⌈(10000 : ℚ)⌉ : ℤ) = 10000 := by norm_num
  have h4 : (roundHalfEven (q * 100) : ℚ) ≤ 10000 := by
    have : roundHalfEven (q * 100) ≤ 10000 := by omega
    exact_mod_cast this
  linarith

/-!
Embedding of backend/app/agents/logistics_agent.py (class LogisticsAgent).
-/

/-- Feasibility notes appended by recommend_delivery_mode, lines 126-132 of
logistics_agent.py.  The source builds display strings; exceedsWindow carries
the estimated_hours value that the f-string formats with one decimal
("Estimated delivery time ...h exceeds window"), criticalWithinSix stands for
"Freshness critical - delivery must be within 6 hours". -/
inductive FeasibilityNote
  | exceedsWindow (estimatedHours : ℚ)
  | criticalWithinSix
deriving DecidableEq

/-- Result of LogisticsAgent.recommend_delivery_mode (lines 104-152).  The
field estimated_hours is the internal value of line 120; reported_hours and
estimated_cost carry the round(x, 2) values placed in delivery_details.  The
alternative_modes list of line 151 is omitted (never read by the pipeline). -/
structure DeliveryRec where
  recommended_delivery_mode : String
  urgency : String
  feasible : Bool
  feasibility_notes : List FeasibilityNote
  estimated_hours : ℚ
  reported_hours : ℚ
  estimated_cost : ℚ
  temperature_controlled : Bool
deriving DecidableEq

/-- Speed lookup of line 119-120: speed_map.get(required_mode, 70). -/
def speedOf (mode : String) : ℚ :=
  if mode = "cold_chain" then 60
  else if mode = "refrigerated" then 70
  else if mode = "standard" then 80
  else 70

/-- Cost multiplier from self.delivery_modes (lines 15-19); required_mode is
always one of the three keys, the final branch is unreachable. -/
def costMultiplier (mode : String) : ℚ :=
  if mode = "cold_chain" then 3/2
  else if mode = "refrigerated" then 13/10
  else 1

/-- Temperature control flag from self.delivery_modes (lines 15-19). -/
def tempControl (mode : String) : Bool :=
  mode = "cold_chain" || mode = "refrigerated"

/-- Truthiness test of line 126: if availability_window_hours and
estimated_hours > availability_window_hours.  A missing window (None) and a
zero window are both falsy in Python, so neither marks the delivery
infeasible. -/
def windowExceeded (estimatedHours : ℚ) (window : Option ℚ) : Bool :=
  match window with
  | none => false
  | some w => decide (w ≠ 0) && decide (estimatedHours > w)

/-- Mode component of the if-chain of lines 104-115: POOR or CRITICAL give
cold_chain, FAIR and GOOD give refrigerated, everything else standard. -/
def requiredMode (level : String) : String :=
  if level = "POOR" ∨ level = "CRITICAL" then "cold_chain"
  else if level = "FAIR" then "refrigerated"
  else if level = "GOOD" then "refrigerated"
  else "standard"

/-- Urgency component of the same if-chain: POOR or CRITICAL give IMMEDIATE,
FAIR gives HIGH, GOOD and everything else NORMAL. -/
def urgencyOf (level : String) : String :=
  if level = "POOR" ∨ level = "CRITICAL" then "IMMEDIATE"
  else if level = "FAIR" then "HIGH"
  else "NORMAL"

/-- Estimated delivery time of line 120: distance over the mode speed. -/
def estimatedHours (level : String) (distance_km : ℚ) : ℚ :=
  distance_km / speedOf (requiredMode level)

/-- Second feasibility check, lines 130-132: critical freshness with more
than six hours of transport. -/
def criticalLate (score hours : ℚ) : Bool :=
  decide (score < 20) && decide (hours > 6)

/-- Feasibility flag of lines 123-132: starts true, cleared by either
check. -/
def feasibleFlag (score hours : ℚ) (window : Option ℚ) : Bool :=
  !windowExceeded hours window && !criticalLate score hours

/-- Feasibility notes appended in source order (window note first). -/
def notesOf (score hours : ℚ) (window : Option ℚ) : List FeasibilityNote :=
  (if windowExceeded hours window then [FeasibilityNote.exceedsWindow hours]
   else []) ++
  (if criticalLate score hours then [FeasibilityNote.criticalWithinSix]
   else [])

/-- Embedding of LogisticsAgent.recommend_delivery_mode (lines 81-152).
The function is total: no code path raises. -/
def recommendDeliveryMode (freshness_score : ℚ) (freshness_level : String)
    (distance_km quantity : ℚ) (availability_window_hours : Option ℚ) :
    DeliveryRec :=
  { recommended_delivery_mode := requiredMode freshness_level
    urgency := urgencyOf freshness_level
    feasible := feasibleFlag freshness_score
      (estimatedHours freshness_level distance_km) availability_window_hours
    feasibility_notes := notesOf freshness_score
      (estimatedHours freshness_level distance_km) availability_window_hours
    estimated_hours := estimatedHours freshness_level distance_km
    reported_hours := pyRound2 (estimatedHours freshness_level distance_km)
    estimated_cost := pyRound2 ((distance_km * (1/2) + quantity * (1/10)) *
      costMultiplier (requiredMode freshness_level))
    temperature_controlled := tempControl (requiredMode freshness_level) }

/-- A driver record as read by _score_driver (dict.get with defaults). -/
structure Driver where
  capacity : Option ℚ
  rating : Option ℚ
  available_hours : Option ℚ
  vehicle_type : Option String
deriving DecidableEq

/-- The shipment_info dict built by the orchestrator at lines 216-220 of
workflow_orchestrator.py. -/
structure ShipmentInfo where
  freshness_level : Option String
  freshness_score : Option ℚ
  quantity : ℚ
deriving DecidableEq

/-- Embedding of LogisticsAgent._score_driver (lines 223-252).  A none result
models the ZeroDivisionError raised by (capacity / quantity) when the
capacity check passes with quantity equal to 0. -/
def scoreDriver (driver : Driver) (info : ShipmentInfo) : Option ℚ :=
  let capacity := driver.capacity.getD 0
  let quantity := info.quantity
  let capPart? : Option ℚ :=
    if capacity ≥ quantity then
      if quantity = 0 then none
      else some (min 30 (capacity / quantity * 10))
    else some 0
  capPart?.map (fun capPart =>
    let ratingPart := driver.rating.getD 0 / 5 * 20
    let freshness_level := info.freshness_level.getD "FAIR"
    let vehicle_type := driver.vehicle_type.getD "standard"
    let vehiclePart : ℚ :=
      if (freshness_level = "POOR" ∨ freshness_level = "CRITICAL") ∧
          vehicle_type = "cold_chain" then 20
      else if (freshness_level = "GOOD" ∨ freshness_level = "FAIR") ∧
          (vehicle_type = "cold_chain" ∨ vehicle_type = "refrigerated") then 15
      else if vehicle_type = "standard" then 10
      else 0
    let availPart : ℚ := if driver.available_hours.getD 0 ≥ 12 then 10 else 0
    min 100 (50 + capPart + ratingPart + vehiclePart + availPart))

/-- Result of optimize_delivery_route; recommended_drivers carries the top 3
scored drivers of lines 193-212. -/
structure RouteResult where
  status : String
  recommended_drivers : List (Driver × ℚ)
deriving DecidableEq

/-- Ordering used by scored_drivers.sort(key=score, reverse=True), line 191:
stable descending sort by score. -/
def scoreGE (a b : Driver × ℚ) : Prop := b.2 ≤ a.2

instance : DecidableRel scoreGE := fun a b =>
  inferInstanceAs (Decidable (b.2 ≤ a.2))

/-- Embedding of LogisticsAgent.optimize_delivery_route (lines 154-212).
A none result models an exception escaping the loop that scores each driver
(the only raising operation is _score_driver). -/
def optimizeDeliveryRoute (drivers : List Driver) (info : ShipmentInfo) :
    Option RouteResult :=
  match drivers with
  | [] => some { status := "no_drivers", recommended_drivers := [] }
  | _ => do
    let scored ← drivers.mapM (fun d => (scoreDriver d info).map (fun s => (d, s)))
    let sorted := List.insertionSort scoreGE scored
    some { status := "success", recommended_drivers := sorted.take 3 }

/-!
Embedding of backend/app/agents/market_agent.py (analyze_market_for_crop).
-/

/-- A market_items record as read by analyze_market_for_crop (dict.get with
defaults, lines 354-365).  Only the keys the financial computation reads are
kept; trend and spoilageRisk feed display fields no claim mentions. -/
structure MarketItem where
  id : Option String
  mandiName : Option String
  price : Option ℚ
deriving DecidableEq

/-- Transport rate per km from MANDI_DATABASE (lines 127-140); an unknown
mandi name falls back to the default dict of line 356 with rate 3.5. -/
def mandiRate (name : String) : ℚ :=
  if name = "Pune APMC" then 7/2
  else if name = "Nashik Mandi" then 3
  else if name = "Nashik Grape Market" then 3
  else if name = "Mumbai Wholesale" then 4
  else if name = "Kolhapur Market" then 16/5
  else if name = "Ratnagiri APMC" then 7/2
  else if name = "Jalgaon APMC" then 3
  else if name = "Satara Mandi" then 16/5
  else if name = "Solapur APMC" then 3
  else if name = "Sangli Spice Market" then 16/5
  else if name = "Aurangabad Market" then 3
  else if name = "Pune Vegetable Market" then 7/2
  else 7/2

/-- The four financial quantities of lines 365-369 of market_agent.py:
revenue, transport_cost, net_profit and the percentage profit_margin. -/
structure Financials where
  revenue : ℚ
  transport_cost : ℚ
  net_profit : ℚ
  profit_margin : ℚ
deriving DecidableEq

/-- Embedding of the per-mandi financial computation, lines 365-369. -/
def computeFinancials (price_per_kg quantity_kg distance rate : ℚ) :
    Financials :=
  let revenue := price_per_kg * quantity_kg
  let transport_cost := distance * rate * (quantity_kg / 100)
  let net_profit := revenue - transport_cost
  let profit_margin := if revenue > 0 then net_profit / revenue * 100 else 0
  ⟨revenue, transport_cost, net_profit, profit_margin⟩

/-- A MandiOption as constructed at lines 371-385; the recommendation_reason
display string and the trend/spoilage_risk pass-through fields are omitted
(no claim reads them). -/
structure MandiOption where
  mandi_id : String
  mandi_name : String
  current_price : ℚ
  distance_km : ℚ
  estimated_revenue : ℚ
  transport_cost : ℚ
  net_profit : ℚ
  profit_margin_percent : ℚ
  recommended : Bool
deriving DecidableEq, Inhabited

/-- Construction of one MandiOption (lines 354-385).  The distance of line
359 is haversine trigonometry over fixed coordinates; it is abstracted as the
input function dist from the mandi name, since no claim depends on the
numeric distance value.  defaultPrice is the get_crop_default_price result
used by item.get("price", default_price). -/
def buildOption (defaultPrice quantity : ℚ) (dist : String → ℚ)
    (item : MarketItem) : MandiOption :=
  let mandi_name := item.mandiName.getD "Unknown Mandi"
  let distance := dist mandi_name
  let price := item.price.getD defaultPrice
  let f := computeFinancials price quantity distance (mandiRate mandi_name)
  { mandi_id := item.id.getD "M000"
    mandi_name := mandi_name
    current_price := price
    distance_km := distance
    estimated_revenue := pyRound2 f.revenue
    transport_cost := pyRound2 f.transport_cost
    net_profit := pyRound2 f.net_profit
    profit_margin_percent := pyRound1 f.profit_margin
    recommended := false }

/-- Ordering used by mandi_options.sort(key=net_profit, reverse=True), line
388: stable descending sort by net_profit. -/
def npGE (a b : MandiOption) : Prop := b.net_profit ≤ a.net_profit

instance : DecidableRel npGE := fun a b =>
  inferInstanceAs (Decidable (b.net_profit ≤ a.net_profit))

instance : IsTotal MandiOption npGE :=
  ⟨fun a b => le_total b.net_profit a.net_profit⟩

instance : IsTrans MandiOption npGE :=
  ⟨fun _ _ _ hab hbc => le_trans hbc hab⟩

/-- Stable descending sort of line 388 (Python list.sort is stable, and with
reverse=True equal keys keep their original relative order, exactly as
List.insertionSort with the npGE relation). -/
def sortByNetProfit (l : List MandiOption) : List MandiOption :=
  List.insertionSort npGE l

/-- Marking of the best option, lines 391-394: the head of the sorted list
gets recommended := true. -/
def markBest : List MandiOption → List MandiOption
  | [] => []
  | best :: rest => { best with recommended := true } :: rest

/-- Sort plus marking, lines 388-394 of analyze_market_for_crop. -/
def rankOptions (l : List MandiOption) : List MandiOption :=
  markBest (sortByNetProfit l)

/-- The profit_gap message of lines 396-403, as a tagged value: gap carries
best.net_profit - worst.net_profit (the number the f-string formats), and the
other constructors stand for the "Single option available" and "No market
data available" strings. -/
inductive ProfitGap
  | gap (amount : ℚ)
  | singleOpt
  | noData
deriving DecidableEq

/-- Computation of the profit gap from the sorted-and-marked option list
(mandi_options[0] versus mandi_options[-1], lines 396-403). -/
def profitGapOf : List MandiOption → ProfitGap
  | [] => .noData
  | [_] => .singleOpt
  | best :: next :: rest =>
      .gap (best.net_profit - ((next :: rest).getLast (by simp)).net_profit)

/-!
Spec-modelled freshness scorer.  The orchestrator (workflow_orchestrator.py
line 8, 125) imports a FreshnessAgent class with a predict_freshness method,
but no such class exists under src/ (freshness_agent.py only defines the
Gemini sensor pipeline).  The scorer is therefore modelled from spec section
4.1.
-/

/-- Crop profile resolved from the crop-profile table of spec 4.1 step 1:
optimal temperature range, optimal humidity range, shelf life in days. -/
structure CropProfile where
  tmin : ℚ
  tmax : ℚ
  hmin : ℚ
  hmax : ℚ
  shelf_life_days : ℚ
deriving DecidableEq

/-- Modelled from the spec: the crop-profile table used by the missing
FreshnessAgent.predict_freshness.  Temperature and humidity ranges follow the
get_optimal_conditions table that does exist in src (freshness_agent.py lines
249-261); shelf lives are positive design constants, and only their
positivity matters to any claim. -/
def cropProfiles : List (String × CropProfile) :=
  [ ("tomatoes", ⟨10, 21, 85, 95, 5⟩)
  , ("potatoes", ⟨4, 10, 85, 95, 30⟩)
  , ("onions", ⟨0, 4, 65, 70, 30⟩)
  , ("grapes", ⟨0, 2, 90, 95, 7⟩)
  , ("bananas", ⟨13, 15, 85, 90, 5⟩)
  , ("mangoes", ⟨10, 13, 85, 90, 7⟩)
  , ("wheat", ⟨15, 25, 40, 60, 180⟩)
  , ("rice", ⟨12, 15, 12, 14, 180⟩)
  , ("sugarcane", ⟨20, 30, 70, 80, 14⟩) ]

/-- Default profile for unmatched crop names (spec 4.1 step 1; the ranges are
the default of get_optimal_conditions, line 261). -/
def defaultProfile : CropProfile := ⟨15, 25, 60, 80, 5⟩

/-- Modelled from the spec: profile resolution with fallback to the default
category for unmatched names. -/
def lookupProfile (crop : String) : CropProfile :=
  ((cropProfiles.find? (fun p => p.1 = crop)).map (fun p => p.2)).getD
    defaultProfile

/-- Modelled from the spec, 4.1 step 2: env_score(v, lo, hi) = 100 inside the
range, else 100 - 5 * distance_from_range floored at 0. -/
def envScore (v lo hi : ℚ) : ℚ :=
  if lo ≤ v ∧ v ≤ hi then 100
  else max 0 (100 - 5 * (if v < lo then lo - v else v - hi))

/-- Modelled from the spec, 4.1 step 3: age_score = 100 when age is absent,
else max(0, 100 - age_hours * (100 / (shelf_life_days * 24))). -/
def ageScore (age : Option ℚ) (shelf : ℚ) : ℚ :=
  match age with
  | none => 100
  | some a => max 0 (100 - a * (100 / (shelf * 24)))

/-- Modelled from the spec, 4.1 step 4: weighted combination
0.30 * temp + 0.40 * humidity + 0.30 * age. -/
def freshnessScore (p : CropProfile) (temperature humidity : ℚ)
    (age : Option ℚ) : ℚ :=
  (3/10) * envScore temperature p.tmin p.tmax +
  (4/10) * envScore humidity p.hmin p.hmax +
  (3/10) * ageScore age p.shelf_life_days

/-- Modelled from the spec, 4.1 step 5: level thresholds with inclusive lower
bounds 80 / 60 / 40 / 20. -/
def levelOf (s : ℚ) : String :=
  if 80 ≤ s then "EXCELLENT"
  else if 60 ≤ s then "GOOD"
  else if 40 ≤ s then "FAIR"
  else if 20 ≤ s then "POOR"
  else "CRITICAL"

/-- Payload of the freshness stage as read by the orchestrator through
dict.get (lines 161-164, 192-197 of workflow_orchestrator.py). -/
structure FreshnessData where
  freshness_score : Option ℚ
  freshness_level : Option String
deriving DecidableEq

/-- Empty freshness payload, the dictionary default of line 192. -/
def FreshnessData.empty : FreshnessData := ⟨none, none⟩

/-- Modelled from the spec: FreshnessAgent.predict_freshness, absent from
src/.  Always returns a result (spec 4.1: no failure mode). -/
def predictFreshness (crop : String) (temperature humidity : ℚ)
    (age : Option ℚ) : FreshnessData :=
  let p := lookupProfile crop
  let s := freshnessScore p temperature humidity age
  ⟨some s, some (levelOf s)⟩

/-!
Spec-modelled market pricer.  The orchestrator (line 162) calls
MarketAgent.determine_best_price, but no MarketAgent class exists under src/.
Modelled from spec section 4.2 (a).
-/

/-- Aggregated market statistics consumed by the pricer (spec 4.2 (a) and
section 6: average price plus demand and supply signals). -/
structure MarketStats where
  average_price : ℚ
  demand : ℚ
  supply : ℚ
deriving DecidableEq

/-- Price recommendation dictionary as read by the synthesis step (lines
341-342 of workflow_orchestrator.py). -/
structure PriceRec where
  status : String
  recommended_price : Option ℚ
  pricing_strategy : Option String
deriving DecidableEq

/-- Modelled from the spec: the freshness multiplier step table of 4.2 (a):
1.20 for score at least 80, 1.10 at least 60, 0.95 at least 40, 0.75 at
least 20, else 0.50. -/
def freshnessMultiplier (score : ℚ) : ℚ :=
  if 80 ≤ score then 6/5
  else if 60 ≤ score then 11/10
  else if 40 ≤ score then 19/20
  else if 20 ≤ score then 3/4
  else 1/2

/-- Modelled from the spec: demand multiplier, 1.15 when demand exceeds
supply, 0.85 when demand is below 0.7 times supply, else 1.0. -/
def demandMultiplier (s : MarketStats) : ℚ :=
  if s.demand > s.supply then 23/20
  else if s.demand < (7/10) * s.supply then 17/20
  else 1

/-- Modelled from the spec: urgency multiplier 1.0 / 0.95 / 0.85 for LOW /
MEDIUM / HIGH; a missing urgency behaves as LOW. -/
def urgencyMultiplier (u : Option String) : ℚ :=
  if u = some "HIGH" then 17/20
  else if u = some "MEDIUM" then 19/20
  else 1

/-- Modelled from the spec: quantity multiplier 1.0 below 50 units, 0.98
below 100, 0.95 otherwise. -/
def quantityMultiplier (q : ℚ) : ℚ :=
  if q < 50 then 1
  else if q < 100 then 49/50
  else 19/20

/-- Modelled from the spec: strategy label priority order of 4.2 (a). -/
def strategyLabel (score : ℚ) (s : MarketStats) : String :=
  if 80 ≤ score ∧ s.demand > s.supply then "PREMIUM"
  else if 80 ≤ score then "ABOVE_MARKET"
  else if s.demand > s.supply then "MARKET_RATE_PLUS"
  else if s.demand < (7/10) * s.supply then "COMPETITIVE_DISCOUNT"
  else if score < 40 then "CLEARANCE"
  else "MARKET_RATE"

/-- Modelled from the spec: MarketAgent.determine_best_price, absent from
src/.  With no market statistics it returns the explicit insufficient-data
result of spec 4.2 (a); otherwise the recommended price is the product of
the average price with the four multipliers. -/
def determineBestPrice (score quantity : ℚ) (stats : Option MarketStats)
    (urgency : Option String) : PriceRec :=
  match stats with
  | none => { status := "insufficient_data", recommended_price := none,
              pricing_strategy := none }
  | some s =>
      { status := "success"
        recommended_price := some (s.average_price * freshnessMultiplier score *
          demandMultiplier s * urgencyMultiplier urgency *
          quantityMultiplier quantity)
        pricing_strategy := some (strategyLabel score s) }

/-!
Embedding of backend/app/agents/workflow_orchestrator.py.
-/

/-- Stage wrapper result: the dictionaries of shape status success with data,
or status error with a message, produced by every _execute_*_stage method. -/
inductive StageOutcome (α : Type)
  | success (data : α)
  | error (msg : String)
deriving DecidableEq

/-- Status string of a stage result, as compared at lines 160, 213, 278-281. -/
def statusOf {α : Type} : StageOutcome α → String
  | .success _ => "success"
  | .error _ => "error"

/-- Market data dictionary returned by the (missing) fetch_market_data;
only the market_trend key is ever read by the pipeline (line 343). -/
structure MarketData where
  market_trend : Option String
deriving DecidableEq

/-- Payload of a successful market stage, lines 172-176. -/
structure MarketStagePayload where
  market_data : MarketData
  price_recommendation : PriceRec
deriving DecidableEq

/-- Result of get_available_drivers (logistics_agent.py lines 21-79): the
method catches internally and always returns a status dictionary, modelled
here as an input since the database query is external. -/
structure DriversResult where
  status : String
  drivers : List Driver
deriving DecidableEq

/-- Payload of a successful logistics stage, lines 224-229. -/
structure LogisticsPayload where
  delivery_recommendation : DeliveryRec
  available_drivers : DriversResult
  route_optimization : Option RouteResult
deriving DecidableEq

/-- Weather impact dictionary returned by the (missing) assess_weather_impact,
restricted to the keys the synthesis step reads (lines 287-288, 333). -/
structure WeatherPayload where
  freshness_degradation_rate : Option ℚ
  transportation_duration_hours : Option ℚ
  risk_level : Option String
deriving DecidableEq

/-- Empty weather payload, the dictionary default of line 281. -/
def WeatherPayload.empty : WeatherPayload := ⟨none, none, none⟩

/-- Embedding of _execute_freshness_stage (lines 122-141): the entire call to
predict_freshness sits inside try/except, so an exception from the agent
becomes an error record and never propagates.  The call outcome is the
input. -/
def executeFreshnessStage (call : Except String FreshnessData) :
    StageOutcome FreshnessData :=
  match call with
  | .ok d => .success d
  | .error e => .error e

/-- Embedding of _execute_market_stage (lines 143-181).  fetchCall and
priceCall are the outcomes of the two external agent calls; an exception in
either is caught by the stage wrapper.  When the freshness stage did not
succeed the price recommendation is the status no_freshness_data dictionary
of line 170. -/
def executeMarketStage (fetchCall : Except String MarketData)
    (priceCall : Except String PriceRec) (fr : StageOutcome FreshnessData) :
    StageOutcome MarketStagePayload :=
  match fetchCall with
  | .error e => .error e
  | .ok md =>
    if statusOf fr = "success" then
      match priceCall with
      | .error e => .error e
      | .ok pr => .success { market_data := md, price_recommendation := pr }
    else
      .success { market_data := md
                 price_recommendation :=
                   { status := "no_freshness_data", recommended_price := none,
                     pricing_strategy := none } }

/-- Embedding of _execute_logistics_stage (lines 183-234).  The freshness
info is read through dict.get with defaults (lines 192-199); crop quantity
defaults to 0 when the quantity key is missing (lines 199 and 219); distance
defaults to 100; the availability window is the literal 24 of line 200.  The
driver query result is an input (database access); when it has status
success the route optimization runs, and a ZeroDivisionError inside
_score_driver is caught by the stage wrapper as an error record with the
Python message "division by zero". -/
def executeLogisticsStage (fr : StageOutcome FreshnessData)
    (cropQuantity distanceKm : Option ℚ) (driversResult : DriversResult) :
    StageOutcome LogisticsPayload :=
  let info := match fr with
    | .success d => d
    | .error _ => FreshnessData.empty
  let delivery := recommendDeliveryMode (info.freshness_score.getD 50)
    (info.freshness_level.getD "FAIR") (distanceKm.getD 100)
    (cropQuantity.getD 0) (some 24)
  if driversResult.status = "success" then
    match optimizeDeliveryRoute driversResult.drivers
        { freshness_level := info.freshness_level
          freshness_score := info.freshness_score
          quantity := cropQuantity.getD 0 } with
    | none => .error "division by zero"
    | some route =>
        .success { delivery_recommendation := delivery
                   available_drivers := driversResult
                   route_optimization := some route }
  else
    .success { delivery_recommendation := delivery
               available_drivers := driversResult
               route_optimization := none }

/-- Embedding of _execute_weather_stage (lines 236-263): the external
assess_weather_impact call is the input, exceptions become error records. -/
def executeWeatherStage (assessCall : Except String WeatherPayload) :
    StageOutcome WeatherPayload :=
  match assessCall with
  | .ok d => .success d
  | .error e => .error e

/-- Freshness data extraction of line 278: the payload when the stage
succeeded, the empty dictionary otherwise. -/
def synthFreshnessData (fr : StageOutcome FreshnessData) : FreshnessData :=
  match fr with
  | .success d => d
  | .error _ => FreshnessData.empty

/-- Base freshness of line 284: freshness_data.get("freshness_score", 50). -/
def synthBase (fr : StageOutcome FreshnessData) : ℚ :=
  (synthFreshnessData fr).freshness_score.getD 50

/-- Weather data extraction of line 281. -/
def synthWeatherData (wr : StageOutcome WeatherPayload) : WeatherPayload :=
  match wr with
  | .success d => d
  | .error _ => WeatherPayload.empty

/-- Degradation rate of line 287, default 1.0. -/
def synthRate (wr : StageOutcome WeatherPayload) : ℚ :=
  (synthWeatherData wr).freshness_degradation_rate.getD 1

/-- Transport hours of line 288, default 2. -/
def synthHours (wr : StageOutcome WeatherPayload) : ℚ :=
  (synthWeatherData wr).transportation_duration_hours.getD 2

/-- Delivery mode of line 292: the recommendation of a successful logistics
stage, else the default standard. -/
def synthMode (lr : StageOutcome LogisticsPayload) : String :=
  match lr with
  | .success p => p.delivery_recommendation.recommended_delivery_mode
  | .error _ => "standard"

/-- Preservation bonus table of lines 293-297, default 0 for unknown modes. -/
def modeBonus (mode : String) : ℚ :=
  if mode = "cold_chain" then 5
  else if mode = "refrigerated" then 3
  else if mode = "standard" then 0
  else 0

/-- Final freshness score of lines 300-302:
max(0, min(100, base - rate * hours + bonus)). -/
def finalScore (fr : StageOutcome FreshnessData)
    (lr : StageOutcome LogisticsPayload) (wr : StageOutcome WeatherPayload) :
    ℚ :=
  max 0 (min 100 (synthBase fr - synthRate wr * synthHours wr +
    modeBonus (synthMode lr)))

/-- Level thresholds of lines 305-314. -/
def synthLevel (s : ℚ) : String :=
  if 80 ≤ s then "EXCELLENT"
  else if 60 ≤ s then "GOOD"
  else if 40 ≤ s then "FAIR"
  else if 20 ≤ s then "POOR"
  else "CRITICAL"

/-- Price recommendation extraction of line 279: the payload when the market
stage succeeded, else the empty dictionary (all keys missing). -/
def synthPriceRec (mr : StageOutcome MarketStagePayload) : PriceRec :=
  match mr with
  | .success p => p.price_recommendation
  | .error _ => { status := "", recommended_price := none,
                  pricing_strategy := none }

/-- Synthesis result dictionary of lines 326-351, flattened: the nested
weather_impact, logistics_impact and market_recommendation dictionaries
become prefixed fields.  The comprehensive_recommendations and action_items
lists (display strings) are omitted: no claim reads them. -/
structure Synthesis where
  final_freshness_score : ℚ
  final_freshness_level : String
  base_freshness_score : ℚ
  weather_degradation_rate : ℚ
  weather_estimated_loss : ℚ
  weather_risk_level : String
  delivery_mode : String
  preservation_bonus : ℚ
  logistics_feasible : Bool
  recommended_price : ℚ
  pricing_strategy : String
  market_trend : String
deriving DecidableEq

/-- Embedding of _synthesize_results (lines 265-351). -/
def synthesize (fr : StageOutcome FreshnessData)
    (mr : StageOutcome MarketStagePayload)
    (lr : StageOutcome LogisticsPayload)
    (wr : StageOutcome WeatherPayload) : Synthesis :=
  let pr := synthPriceRec mr
  { final_freshness_score := pyRound2 (finalScore fr lr wr)
    final_freshness_level := synthLevel (finalScore fr lr wr)
    base_freshness_score := pyRound2 (synthBase fr)
    weather_degradation_rate := pyRound2 (synthRate wr)
    weather_estimated_loss := pyRound2 (synthRate wr * synthHours wr)
    weather_risk_level := (synthWeatherData wr).risk_level.getD "UNKNOWN"
    delivery_mode := synthMode lr
    preservation_bonus := modeBonus (synthMode lr)
    logistics_feasible :=
      (match lr with
       | .success p => p.delivery_recommendation.feasible
       | .error _ => false)
    recommended_price := pr.recommended_price.getD 0
    pricing_strategy := pr.pricing_strategy.getD "MARKET_RATE"
    market_trend :=
      (match mr with
       | .success p => p.market_data.market_trend.getD "stable"
       | .error _ => "stable") }

/-- Results dictionary of execute_workflow (lines 62-120).  A stage field is
some when the stage was invoked during the run. -/
structure WorkflowResults where
  status : String
  freshness : Option (StageOutcome FreshnessData)
  market : Option (StageOutcome MarketStagePayload)
  logistics : Option (StageOutcome LogisticsPayload)
  weather : Option (StageOutcome WeatherPayload)
  synthesis : Option Synthesis
deriving DecidableEq

/-- Embedding of execute_workflow (lines 32-120).  Every stage method wraps
its body in try/except and returns a dictionary, and _synthesize_results is
total, so no exception ever reaches the outer try of lines 70-115: the
pipeline always runs all four stages in order and finishes with status
completed (line 111).  The external agent calls are passed as outcomes. -/
def executeWorkflow (freshCall : Except String FreshnessData)
    (fetchCall : Except String MarketData)
    (priceCall : Except String PriceRec)
    (driversResult : DriversResult)
    (weatherCall : Except String WeatherPayload)
    (cropQuantity distanceKm : Option ℚ) : WorkflowResults :=
  let fr := executeFreshnessStage freshCall
  let mr := executeMarketStage fetchCall priceCall fr
  let lr := executeLogisticsStage fr cropQuantity distanceKm driversResult
  let wr := executeWeatherStage weatherCall
  { status := "completed"
    freshness := some fr
    market := some mr
    logistics := some lr
    weather := some wr
    synthesis := some (synthesize fr mr lr wr) }

/-!
Claim-side definitions: formulas written from the words of the claims, to be
compared with the definitions embedded from the source.
-/

/-- Mode preservation bonus as worded in claim C3: 5 for cold_chain, 3 for
refrigerated, 0 for standard and 0 for any other mode. -/
def specBonus (mode : String) : ℚ :=
  if mode = "cold_chain" then 5
  else if mode = "refrigerated" then 3
  else if mode = "standard" then 0
  else 0

/-- Final score formula as worded in claim C3:
clamp(base - rate * hours + bonus, 0, 100). -/
def specFinalScore (base rate hours : ℚ) (mode : String) : ℚ :=
  max 0 (min 100 (base - rate * hours + specBonus mode))

/-!
Claim C3 theorems.
-/

/-- C3: for every combination of stage outputs the synthesizer computes
final_freshness_score = clamp(base - rate * hours + bonus, 0, 100) with
bonus 5 / 3 / 0 for cold_chain / refrigerated / standard (0 otherwise), and
the final score always lies in [0, 100], even when the weather loss exceeds
the base score; the reported field is that value rounded to two decimals and
also lies in [0, 100]. -/
theorem synthesis_final_score_clamped (fr : StageOutcome FreshnessData)
    (mr : StageOutcome MarketStagePayload) (lr : StageOutcome LogisticsPayload)
    (wr : StageOutcome WeatherPayload) :
    finalScore fr lr wr =
      specFinalScore (synthBase fr) (synthRate wr) (synthHours wr)
        (synthMode lr) ∧
    0 ≤ finalScore fr lr wr ∧ finalScore fr lr wr ≤ 100 ∧
    (synthesize fr mr lr wr).final_freshness_score =
      pyRound2 (finalScore fr lr wr) ∧
    0 ≤ (synthesize fr mr lr wr).final_freshness_score ∧
    (synthesize fr mr lr wr).final_freshness_score ≤ 100 := by
  have hmode : specBonus (synthMode lr) = modeBonus (synthMode lr) := rfl
  have heq : finalScore fr lr wr =
      specFinalScore (synthBase fr) (synthRate wr) (synthHours wr)
        (synthMode lr) := by
    unfold finalScore specFinalScore
    rw [hmode]
  have h0 : 0 ≤ finalScore fr lr wr := le_max_left _ _
  have h100 : finalScore fr lr wr ≤ 100 := by
    unfold finalScore
    exact max_le (by norm_num) (min_le_left _ _)
  exact ⟨heq, h0, h100, rfl, pyRound2_nonneg h0, pyRound2_le_hundred h100⟩

/-!
Claim C2 theorems.  The claim asserts that a failed weather stage contributes
zero loss; in the source the dictionary defaults of lines 287-288 make a
failed weather stage contribute a loss of 1.0 * 2 = 2 points instead.
-/

/-- Evaluation helper: roundHalfEven at a value whose fractional part is
below one half. -/
theorem roundHalfEven_of_lt_half (n : ℤ) (q : ℚ) (h1 : (n : ℚ) ≤ q)
    (h2 : q < n + 1/2) : roundHalfEven q = n := by
  have hf : ⌊q⌋ = n := Int.floor_eq_iff.mpr ⟨h1, by linarith⟩
  unfold roundHalfEven
  dsimp only
  rw [hf, if_pos (by linarith)]

/-- Evaluation helper for pyRound2 when the scaled value rounds down. -/
theorem pyRound2_eq (n : ℤ) (q : ℚ) (h1 : (n : ℚ) ≤ q * 100)
    (h2 : q * 100 < n + 1/2) : pyRound2 q = (n : ℚ) / 100 := by
  unfold pyRound2
  rw [roundHalfEven_of_lt_half n _ h1 h2]

/-- Evaluation helper for pyRound1 when the scaled value rounds down. -/
theorem pyRound1_eq (n : ℤ) (q : ℚ) (h1 : (n : ℚ) ≤ q * 10)
    (h2 : q * 10 < n + 1/2) : pyRound1 q = (n : ℚ) / 10 := by
  unfold pyRound1
  rw [roundHalfEven_of_lt_half n _ h1 h2]

/-- Concrete synthesis run for the C2 counterexample: freshness succeeded at
score 50, logistics recommended standard delivery, weather stage failed. -/
def cexSynthC2 : Synthesis :=
  synthesize (.success ⟨some 50, some "GOOD"⟩) (.error "market down")
    (.success ⟨recommendDeliveryMode 85 "EXCELLENT" 100 0 (some 24),
      ⟨"no_drivers", []⟩, none⟩)
    (.error "weather api timeout")

/-- C2 counterexample: with the freshness stage succeeding at score 50, the
logistics stage recommending standard delivery (bonus 0) and the weather
stage failing, the synthesized final_freshness_score is 48, not
base_freshness_score + mode_preservation_bonus = 50: the claimed equality is
false at this input. -/
theorem weather_failure_zero_loss_cex :
    cexSynthC2.final_freshness_score = 48 ∧
    cexSynthC2.base_freshness_score = 50 ∧
    cexSynthC2.preservation_bonus = 0 ∧
    cexSynthC2.final_freshness_score ≠
      cexSynthC2.base_freshness_score + cexSynthC2.preservation_bonus := by
  have hmode : synthMode (.success ⟨recommendDeliveryMode 85 "EXCELLENT" 100 0
      (some 24), ⟨"no_drivers", []⟩, none⟩) = "standard" := rfl
  have hfinal : finalScore (.success ⟨some 50, some "GOOD"⟩)
      (.success ⟨recommendDeliveryMode 85 "EXCELLENT" 100 0 (some 24),
        ⟨"no_drivers", []⟩, none⟩)
      (.error "weather api timeout") = 48 := by
    unfold finalScore
    rw [hmode]
    show max 0 (min 100 ((50:ℚ) - 1 * 2 + 0)) = 48
    norm_num
  have h48 : pyRound2 48 = 48 := by
    have := pyRound2_eq 4800 48 (by norm_num) (by norm_num)
    rw [this]; norm_num
  have h50 : pyRound2 50 = 50 := by
    have := pyRound2_eq 5000 50 (by norm_num) (by norm_num)
    rw [this]; norm_num
  have hf : cexSynthC2.final_freshness_score = 48 := by
    show pyRound2 (finalScore _ _ _) = 48
    rw [hfinal, h48]
  have hb : cexSynthC2.base_freshness_score = 50 := by
    show pyRound2 (synthBase _) = 50
    show pyRound2 50 = 50
    exact h50
  have hp : cexSynthC2.preservation_bonus = 0 := rfl
  exact ⟨hf, hb, hp, by rw [hf, hb, hp]; norm_num⟩

/-- C2 amended: when the weather stage fails, the degradation rate defaults
to 1.0 and the transport hours to 2, so the synthesized final score equals
clamp(base_freshness_score - 2 + mode_preservation_bonus, 0, 100) (the
weather contribution is a fixed loss of 2 points, not zero). -/
theorem weather_failure_default_loss (fr : StageOutcome FreshnessData)
    (mr : StageOutcome MarketStagePayload) (lr : StageOutcome LogisticsPayload)
    (wr : StageOutcome WeatherPayload) (h : statusOf wr ≠ "success") :
    finalScore fr lr wr =
      max 0 (min 100 (synthBase fr - 2 + modeBonus (synthMode lr))) ∧
    (synthesize fr mr lr wr).final_freshness_score =
      pyRound2 (max 0 (min 100 (synthBase fr - 2 + modeBonus (synthMode lr)))) := by
  cases wr with
  | success d => exact absurd rfl h
  | error e =>
    have hr : synthRate (.error e) = 1 := rfl
    have hh : synthHours (.error e) = 2 := rfl
    constructor
    · unfold finalScore
      rw [hr, hh]
      norm_num
    · show pyRound2 (finalScore fr lr (.error e)) = _
      unfold finalScore
      rw [hr, hh]
      norm_num

/-- C2 amended witness at a concrete input. -/
theorem weather_failure_default_loss_witness :
    statusOf (StageOutcome.error (α := WeatherPayload) "weather api timeout") ≠
      "success" ∧
    finalScore (.success ⟨some 50, some "GOOD"⟩)
      (.success ⟨recommendDeliveryMode 85 "EXCELLENT" 100 0 (some 24),
        ⟨"no_drivers", []⟩, none⟩)
      (.error "weather api timeout") =
      max 0 (min 100 (synthBase (.success ⟨some 50, some "GOOD"⟩) - 2 +
        modeBonus (synthMode (.success ⟨recommendDeliveryMode 85 "EXCELLENT"
          100 0 (some 24), ⟨"no_drivers", []⟩, none⟩)))) :=
  ⟨by decide,
   (weather_failure_default_loss (.success ⟨some 50, some "GOOD"⟩)
     (.error "market down")
     (.success ⟨recommendDeliveryMode 85 "EXCELLENT" 100 0 (some 24),
       ⟨"no_drivers", []⟩, none⟩)
     (.error "weather api timeout") (by decide)).1⟩

/-!
Claim C1 theorems.  The claim asserts that a freshness-stage exception
escalates the whole invocation to status error and short-circuits the other
stages.  In the source, _execute_freshness_stage wraps the predict_freshness
call in try/except (lines 124-141), so the exception becomes an error record,
execute_workflow proceeds through all remaining stages, and the final status
is completed.
-/

/-- Concrete workflow run for the C1 counterexample: the freshness agent
raises (outcome error "boom"), every other external call is benign. -/
def cexWorkflowC1 : WorkflowResults :=
  executeWorkflow (.error "boom") (.ok ⟨some "stable"⟩)
    (.ok ⟨"success", some 100, some "MARKET_RATE"⟩) ⟨"no_drivers", []⟩
    (.ok ⟨some 1, some 2, some "LOW"⟩) (some 100) (some 50)

/-- C1 counterexample: when the freshness agent raises, the pipeline records
the failure as a stage error dictionary, still invokes the Market, Logistics
and Weather stages, and finishes with overall status completed, not error:
both parts of the claim are false at this input. -/
theorem freshness_error_no_short_circuit_cex :
    cexWorkflowC1.freshness = some (.error "boom") ∧
    cexWorkflowC1.status = "completed" ∧
    cexWorkflowC1.status ≠ "error" ∧
    cexWorkflowC1.market.isSome = true ∧
    cexWorkflowC1.logistics.isSome = true ∧
    cexWorkflowC1.weather.isSome = true := by
  refine ⟨rfl, rfl, ?_, rfl, rfl, rfl⟩
  decide

/-- C1 amended: an exception raised by the freshness agent is captured by the
stage wrapper: the freshness stage result has status error with the message,
the Market, Logistics and Weather stages are all still invoked, a synthesis
is still produced, and the overall pipeline status is completed (no stage
failure, including a freshness failure, escalates the invocation to status
error). -/
theorem freshness_error_pipeline_continues (e : String)
    (fetchCall : Except String MarketData) (priceCall : Except String PriceRec)
    (driversResult : DriversResult)
    (weatherCall : Except String WeatherPayload)
    (cropQuantity distanceKm : Option ℚ) :
    (executeWorkflow (.error e) fetchCall priceCall driversResult weatherCall
        cropQuantity distanceKm).status = "completed" ∧
    (executeWorkflow (.error e) fetchCall priceCall driversResult weatherCall
        cropQuantity distanceKm).freshness = some (.error e) ∧
    (executeWorkflow (.error e) fetchCall priceCall driversResult weatherCall
        cropQuantity distanceKm).market.isSome = true ∧
    (executeWorkflow (.error e) fetchCall priceCall driversResult weatherCall
        cropQuantity distanceKm).logistics.isSome = true ∧
    (executeWorkflow (.error e) fetchCall priceCall driversResult weatherCall
        cropQuantity distanceKm).weather.isSome = true ∧
    (executeWorkflow (.error e) fetchCall priceCall driversResult weatherCall
        cropQuantity distanceKm).synthesis.isSome = true :=
  ⟨rfl, rfl, rfl, rfl, rfl, rfl⟩

/-!
Claim C10 theorems: _score_driver stays within [50, 100] for positive
shipment quantities, and divides by zero when the quantity is 0 (the
orchestrator default for a missing quantity key) while the capacity check
passes, which makes the logistics stage fail.
-/

/-- Helper: with quantity 0 and non-negative capacity the capacity branch is
entered and the division raises. -/
theorem scoreDriver_zero_quantity (d : Driver) (info : ShipmentInfo)
    (hq : info.quantity = 0) (hcap : 0 ≤ d.capacity.getD 0) :
    scoreDriver d info = none := by
  unfold scoreDriver
  dsimp only
  rw [if_pos hq,
    if_pos (show d.capacity.getD 0 ≥ info.quantity by rw [hq]; exact hcap)]
  rfl

/-- Helper: with positive quantity and non-negative capacity and rating the
score exists and lies in [50, 100]. -/
theorem scoreDriver_bounds (d : Driver) (info : ShipmentInfo)
    (hq : 0 < info.quantity) (hcap : 0 ≤ d.capacity.getD 0)
    (hrat : 0 ≤ d.rating.getD 0) :
    ∃ q, scoreDriver d info = some q ∧ 50 ≤ q ∧ q ≤ 100 := by
  unfold scoreDriver
  dsimp only
  have hratingPart : 0 ≤ d.rating.getD 0 / 5 * 20 := by positivity
  have hvehicle : (0:ℚ) ≤
      (if (info.freshness_level.getD "FAIR" = "POOR" ∨
          info.freshness_level.getD "FAIR" = "CRITICAL") ∧
          d.vehicle_type.getD "standard" = "cold_chain" then 20
      else if (info.freshness_level.getD "FAIR" = "GOOD" ∨
          info.freshness_level.getD "FAIR" = "FAIR") ∧
          (d.vehicle_type.getD "standard" = "cold_chain" ∨
           d.vehicle_type.getD "standard" = "refrigerated") then 15
      else if d.vehicle_type.getD "standard" = "standard" then 10
      else 0) := by
    split_ifs <;> norm_num
  have havail : (0:ℚ) ≤ if d.available_hours.getD 0 ≥ 12 then 10 else 0 := by
    split_ifs <;> norm_num
  by_cases h1 : d.capacity.getD 0 ≥ info.quantity
  · rw [if_pos h1, if_neg hq.ne']
    refine ⟨_, rfl, ?_, min_le_left _ _⟩
    have hcp : 0 ≤ min 30 (d.capacity.getD 0 / info.quantity * 10) := by
      have : 0 ≤ d.capacity.getD 0 / info.quantity * 10 := by positivity
      exact le_min (by norm_num) this
    exact le_min (by norm_num) (by linarith)
  · rw [if_neg h1]
    refine ⟨_, rfl, ?_, min_le_left _ _⟩
    exact le_min (by norm_num) (by linarith)

/-- C10: for every driver record with non-negative capacity and rating and
every shipment with positive quantity, _score_driver returns a suitability
score in [50, 100]; when the shipment quantity is 0 (the orchestrator default
for a missing quantity key) and the capacity is non-negative, the capacity
check passes and (capacity / quantity) raises ZeroDivisionError, so the
logistics stage result is the status error record with the Python message
"division by zero". -/
theorem score_driver_bounds_and_zero_quantity_failure :
    (∀ (d : Driver) (info : ShipmentInfo), 0 < info.quantity →
      0 ≤ d.capacity.getD 0 → 0 ≤ d.rating.getD 0 →
      ∃ q, scoreDriver d info = some q ∧ 50 ≤ q ∧ q ≤ 100) ∧
    (∀ (d : Driver) (info : ShipmentInfo), info.quantity = 0 →
      0 ≤ d.capacity.getD 0 → scoreDriver d info = none) ∧
    (∀ (fr : StageOutcome FreshnessData) (distanceKm : Option ℚ) (d : Driver)
      (ds : List Driver), 0 ≤ d.capacity.getD 0 →
      executeLogisticsStage fr none distanceKm ⟨"success", d :: ds⟩ =
        .error "division by zero") := by
  refine ⟨scoreDriver_bounds, scoreDriver_zero_quantity, ?_⟩
  intro fr distanceKm d ds hcap
  have hroute : ∀ info : ShipmentInfo, info.quantity = 0 →
      optimizeDeliveryRoute (d :: ds) info = none := by
    intro info hq
    have hscore : scoreDriver d info = none :=
      scoreDriver_zero_quantity _ _ hq hcap
    unfold optimizeDeliveryRoute
    simp only [List.mapM_cons, hscore, Option.map_none']
    rfl
  unfold executeLogisticsStage
  dsimp only
  rw [if_pos rfl, hroute _ rfl]

/-- C10 witness at concrete inputs: a driver with capacity 1000 and rating 4
on a 500 kg shipment scores within [50, 100], and with a missing quantity key
the logistics stage fails with the division-by-zero error. -/
theorem score_driver_bounds_witness :
    (0:ℚ) < (⟨some "POOR", some 25, 500⟩ : ShipmentInfo).quantity ∧
    (∃ q, scoreDriver ⟨some 1000, some 4, some 14, some "cold_chain"⟩
        ⟨some "POOR", some 25, 500⟩ = some q ∧ 50 ≤ q ∧ q ≤ 100) ∧
    executeLogisticsStage (.error "boom") none none
      ⟨"success", [⟨some 1000, some 4, some 14, some "cold_chain"⟩]⟩ =
      .error "division by zero" :=
  ⟨by norm_num,
   score_driver_bounds_and_zero_quantity_failure.1
     ⟨some 1000, some 4, some 14, some "cold_chain"⟩ ⟨some "POOR", some 25, 500⟩
     (by norm_num) (by norm_num [Option.getD]) (by norm_num [Option.getD]),
   score_driver_bounds_and_zero_quantity_failure.2.2 (.error "boom") none
     ⟨some 1000, some 4, some 14, some "cold_chain"⟩ []
     (by norm_num [Option.getD])⟩

/-!
Claim C7 theorems (spec-modelled: the FreshnessAgent class with the
predict_freshness method called by the orchestrator is not under src/, so the
scorer is modelled from spec section 4.1).
-/

/-- Level step function as worded in claim C7: at least 80 EXCELLENT, at
least 60 GOOD, at least 40 FAIR, at least 20 POOR, else CRITICAL. -/
def specLevelStep (s : ℚ) : String :=
  if s ≥ 80 then "EXCELLENT"
  else if s ≥ 60 then "GOOD"
  else if s ≥ 40 then "FAIR"
  else if s ≥ 20 then "POOR"
  else "CRITICAL"

/-- Helper: environment scores stay non-negative. -/
theorem envScore_nonneg (v lo hi : ℚ) : 0 ≤ envScore v lo hi := by
  unfold envScore
  split
  · norm_num
  · exact le_max_left _ _

/-- Helper: environment scores never exceed 100. -/
theorem envScore_le (v lo hi : ℚ) : envScore v lo hi ≤ 100 := by
  unfold envScore
  split
  · norm_num
  next hout =>
    refine max_le (by norm_num) ?_
    rcases not_and_or.mp hout with hlt | hgt
    · rw [if_pos (lt_of_not_le hlt)]
      have := lt_of_not_le hlt
      linarith
    · have hv : ¬v < lo → 0 ≤ v - hi := by
        intro hge
        have := lt_of_not_le hgt
        linarith
      by_cases hc : v < lo
      · rw [if_pos hc]; linarith
      · rw [if_neg hc]
        have := hv hc
        linarith

/-- Helper: age scores stay non-negative. -/
theorem ageScore_nonneg (age : Option ℚ) (shelf : ℚ) :
    0 ≤ ageScore age shelf := by
  unfold ageScore
  cases age with
  | none => norm_num
  | some a => exact le_max_left _ _

/-- Helper: age scores never exceed 100 for non-negative ages and positive
shelf lives. -/
theorem ageScore_le (age : Option ℚ) (shelf : ℚ) (hsh : 0 < shelf)
    (hage : ∀ a, age = some a → 0 ≤ a) : ageScore age shelf ≤ 100 := by
  unfold ageScore
  cases age with
  | none => norm_num
  | some a =>
    have ha := hage a rfl
    have hk : 0 ≤ 100 / (shelf * 24) := by positivity
    have : 0 ≤ a * (100 / (shelf * 24)) := mul_nonneg ha hk
    exact max_le (by norm_num) (by linarith)

/-- Helper: every resolved crop profile has positive shelf life. -/
theorem lookupProfile_shelf_pos (crop : String) :
    0 < (lookupProfile crop).shelf_life_days := by
  unfold lookupProfile
  cases hfind : cropProfiles.find? (fun p => p.1 = crop) with
  | none => norm_num [defaultProfile]
  | some p =>
    have hmem : p ∈ cropProfiles := List.mem_of_find?_eq_some hfind
    simp only [cropProfiles, List.mem_cons, List.not_mem_nil, or_false]
      at hmem
    rcases hmem with h|h|h|h|h|h|h|h|h <;> subst h <;> norm_num

/-- C7 (spec-modelled): for every crop observation with temperature in
[-10, 60], humidity in [0, 100] and non-negative age, the freshness scorer
always returns a score in [0, 100] together with the level given by the step
thresholds, exact at the boundary values 80, 60, 40 and 20. -/
theorem predict_freshness_score_bounds (crop : String) (t h : ℚ)
    (age : Option ℚ) (ht1 : -10 ≤ t) (ht2 : t ≤ 60) (hh1 : 0 ≤ h)
    (hh2 : h ≤ 100) (hage : ∀ a, age = some a → 0 ≤ a) :
    ∃ s, (predictFreshness crop t h age).freshness_score = some s ∧
      0 ≤ s ∧ s ≤ 100 ∧
      (predictFreshness crop t h age).freshness_level =
        some (specLevelStep s) ∧
      specLevelStep 80 = "EXCELLENT" ∧ specLevelStep 60 = "GOOD" ∧
      specLevelStep 40 = "FAIR" ∧ specLevelStep 20 = "POOR" := by
  refine ⟨freshnessScore (lookupProfile crop) t h age, rfl, ?_, ?_, ?_, ?_, ?_,
    ?_, ?_⟩
  · unfold freshnessScore
    have h1 := envScore_nonneg t (lookupProfile crop).tmin
      (lookupProfile crop).tmax
    have h2 := envScore_nonneg h (lookupProfile crop).hmin
      (lookupProfile crop).hmax
    have h3 := ageScore_nonneg age (lookupProfile crop).shelf_life_days
    linarith
  · unfold freshnessScore
    have h1 := envScore_le t (lookupProfile crop).tmin
      (lookupProfile crop).tmax
    have h2 := envScore_le h (lookupProfile crop).hmin
      (lookupProfile crop).hmax
    have h3 := ageScore_le age (lookupProfile crop).shelf_life_days
      (lookupProfile_shelf_pos crop) hage
    linarith
  · rfl
  · norm_num [specLevelStep]
  · norm_num [specLevelStep]
  · norm_num [specLevelStep]
  · norm_num [specLevelStep]

/-- C7 witness: tomatoes at 18 degrees, 90 percent humidity and age 0 satisfy
the hypotheses, and the theorem applies. -/
theorem predict_freshness_score_bounds_witness :
    (-10 : ℚ) ≤ 18 ∧
    (∃ s, (predictFreshness "tomatoes" 18 90 (some 0)).freshness_score =
        some s ∧ 0 ≤ s ∧ s ≤ 100 ∧
      (predictFreshness "tomatoes" 18 90 (some 0)).freshness_level =
        some (specLevelStep s) ∧
      specLevelStep 80 = "EXCELLENT" ∧ specLevelStep 60 = "GOOD" ∧
      specLevelStep 40 = "FAIR" ∧ specLevelStep 20 = "POOR") :=
  ⟨by norm_num,
   predict_freshness_score_bounds "tomatoes" 18 90 (some 0) (by norm_num)
     (by norm_num) (by norm_num) (by norm_num)
     (by intro a ha; simp only [Option.some.injEq] at ha; rw [← ha])⟩

/-!
Claim C4 theorems: the ranked option list is sorted by net profit descending
and exactly its first element is recommended.
-/

/-- Helper: options built at lines 371-385 carry recommended = false. -/
theorem buildOption_not_recommended (defaultPrice quantity : ℚ)
    (dist : String → ℚ) (item : MarketItem) :
    (buildOption defaultPrice quantity dist item).recommended = false := rfl

/-- Helper: the ranked list stays pairwise sorted by net profit, since the
head marking does not change any net_profit value. -/
theorem rankOptions_pairwise (l : List MandiOption) :
    List.Pairwise npGE (rankOptions l) := by
  unfold rankOptions markBest
  cases hs : sortByNetProfit l with
  | nil => exact List.Pairwise.nil
  | cons hd tl =>
    have hsorted : List.Pairwise npGE (hd :: tl) := by
      rw [← hs]
      exact List.sorted_insertionSort npGE l
    rcases List.pairwise_cons.mp hsorted with ⟨hh, ht⟩
    exact List.pairwise_cons.mpr ⟨fun b hb => hh b hb, ht⟩

/-- Helper: every element of the sorted list was an input element. -/
theorem mem_of_mem_sortByNetProfit {o : MandiOption} {l : List MandiOption}
    (h : o ∈ sortByNetProfit l) : o ∈ l :=
  (List.perm_insertionSort npGE l).subset h

/-- C4: for every market analysis whose ranked mandi option list is
non-empty, the list is sorted by net_profit in descending order, exactly one
option is recommended, that option is the first, and all later options are
not recommended. -/
theorem market_ranking_sorted_unique_best (defaultPrice quantity : ℚ)
    (dist : String → ℚ) (items : List MarketItem)
    (hne : rankOptions (items.map (buildOption defaultPrice quantity dist)) ≠
      []) :
    List.Pairwise (fun a b => b.net_profit ≤ a.net_profit)
      (rankOptions (items.map (buildOption defaultPrice quantity dist))) ∧
    (rankOptions (items.map (buildOption defaultPrice quantity dist))).countP
      (fun o => o.recommended) = 1 ∧
    ((rankOptions (items.map (buildOption defaultPrice quantity dist))).head?).map
      (fun o => o.recommended) = some true ∧
    ∀ o ∈ (rankOptions (items.map (buildOption defaultPrice quantity dist))).tail,
      o.recommended = false := by
  have hall : ∀ o ∈ items.map (buildOption defaultPrice quantity dist),
      o.recommended = false := by
    intro o ho
    rcases List.mem_map.mp ho with ⟨it, _, rfl⟩
    rfl
  refine ⟨rankOptions_pairwise _, ?_⟩
  unfold rankOptions markBest at hne ⊢
  cases hs : sortByNetProfit (items.map (buildOption defaultPrice quantity
      dist)) with
  | nil => rw [hs] at hne; exact absurd rfl hne
  | cons hd tl =>
    have htl : ∀ o ∈ tl, o.recommended = false := by
      intro o ho
      exact hall o (mem_of_mem_sortByNetProfit (hs ▸ List.mem_cons_of_mem hd ho))
    refine ⟨?_, rfl, ?_⟩
    · rw [List.countP_cons]
      have h0 : tl.countP (fun o => o.recommended) = 0 := by
        rw [List.countP_eq_zero]
        intro o ho
        simp only [htl o ho, Bool.false_eq_true, not_false_eq_true]
      simp [h0]
    · intro o ho
      exact htl o ho

/-- C4 witness: two concrete market items yield a non-empty ranked list. -/
theorem market_ranking_sorted_unique_best_witness :
    rankOptions ([⟨some "M1", some "Pune APMC", some 105⟩,
      ⟨some "M2", some "Mumbai Wholesale", some 40⟩].map
      (buildOption 50 100 (fun _ => 10))) ≠ [] ∧
    (List.Pairwise (fun a b => b.net_profit ≤ a.net_profit)
      (rankOptions ([⟨some "M1", some "Pune APMC", some 105⟩,
        ⟨some "M2", some "Mumbai Wholesale", some 40⟩].map
        (buildOption 50 100 (fun _ => 10)))) ∧
    (rankOptions ([⟨some "M1", some "Pune APMC", some 105⟩,
        ⟨some "M2", some "Mumbai Wholesale", some 40⟩].map
        (buildOption 50 100 (fun _ => 10)))).countP
      (fun o => o.recommended) = 1 ∧
    ((rankOptions ([⟨some "M1", some "Pune APMC", some 105⟩,
        ⟨some "M2", some "Mumbai Wholesale", some 40⟩].map
        (buildOption 50 100 (fun _ => 10)))).head?).map
      (fun o => o.recommended) = some true ∧
    ∀ o ∈ (rankOptions ([⟨some "M1", some "Pune APMC", some 105⟩,
        ⟨some "M2", some "Mumbai Wholesale", some 40⟩].map
        (buildOption 50 100 (fun _ => 10)))).tail,
      o.recommended = false) := by
  have hne : rankOptions ([⟨some "M1", some "Pune APMC", some 105⟩,
      ⟨some "M2", some "Mumbai Wholesale", some 40⟩].map
      (buildOption 50 100 (fun _ => 10))) ≠ [] := by
    unfold rankOptions markBest
    cases hs : sortByNetProfit ([⟨some "M1", some "Pune APMC", some 105⟩,
        ⟨some "M2", some "Mumbai Wholesale", some 40⟩].map
        (buildOption 50 100 (fun _ => 10))) with
    | nil =>
      have := (List.perm_insertionSort npGE
        ([⟨some "M1", some "Pune APMC", some 105⟩,
          ⟨some "M2", some "Mumbai Wholesale", some 40⟩].map
          (buildOption 50 100 (fun _ => 10)))).length_eq
      rw [show sortByNetProfit ([⟨some "M1", some "Pune APMC", some 105⟩,
          ⟨some "M2", some "Mumbai Wholesale", some 40⟩].map
          (buildOption 50 100 (fun _ => 10))) =
        List.insertionSort npGE ([⟨some "M1", some "Pune APMC", some 105⟩,
          ⟨some "M2", some "Mumbai Wholesale", some 40⟩].map
          (buildOption 50 100 (fun _ => 10))) from rfl] at hs
      rw [hs] at this
      simp at this
    | cons hd tl => simp
  exact ⟨hne, market_ranking_sorted_unique_best 50 100 (fun _ => 10) _ hne⟩

/-!
Claim C8 theorems.  The claim asserts order-insensitivity of the ranking for
every multiset of candidates while also stating that ties are broken by
original input index; with tied net profits the stable sort keeps the input
order, so two orderings of the same candidates produce different outputs and
different recommended locations.  Invariance does hold when all net profits
are pairwise distinct.
-/

/-- First tied option for the C8 counterexample (price 10, quantity 100,
distance 10 at transport rate 3.5: revenue 1000, cost 350, net profit 650). -/
def optionAlpha : MandiOption :=
  ⟨"M1", "Alpha", 10, 10, 1000, 350, 650, 65, false⟩

/-- Second tied option, same financials, different mandi. -/
def optionBeta : MandiOption :=
  ⟨"M2", "Beta", 10, 10, 1000, 350, 650, 65, false⟩

/-- C8 counterexample: the two input orderings of the same two tied
candidates are permutations of each other, yet the ranking recommends Alpha
for one ordering and Beta for the other, and the two output lists differ:
the claimed input-order independence is false at this input. -/
theorem ranking_not_permutation_invariant_cex :
    [optionAlpha, optionBeta].Perm [optionBeta, optionAlpha] ∧
    ((rankOptions [optionAlpha, optionBeta]).head?).map
      (fun o => o.mandi_name) = some "Alpha" ∧
    ((rankOptions [optionBeta, optionAlpha]).head?).map
      (fun o => o.mandi_name) = some "Beta" ∧
    rankOptions [optionAlpha, optionBeta] ≠
      rankOptions [optionBeta, optionAlpha] := by
  have h1 : rankOptions [optionAlpha, optionBeta] =
      [{ optionAlpha with recommended := true }, optionBeta] := by
    unfold rankOptions sortByNetProfit markBest
    rw [show List.insertionSort npGE [optionAlpha, optionBeta] =
      List.orderedInsert npGE optionAlpha [optionBeta] from rfl]
    rw [List.orderedInsert,
      if_pos (show npGE optionAlpha optionBeta from le_refl 650)]
  have h2 : rankOptions [optionBeta, optionAlpha] =
      [{ optionBeta with recommended := true }, optionAlpha] := by
    unfold rankOptions sortByNetProfit markBest
    rw [show List.insertionSort npGE [optionBeta, optionAlpha] =
      List.orderedInsert npGE optionBeta [optionAlpha] from rfl]
    rw [List.orderedInsert,
      if_pos (show npGE optionBeta optionAlpha from le_refl 650)]
  refine ⟨List.Perm.swap optionBeta optionAlpha [], ?_, ?_, ?_⟩
  · rw [h1]; rfl
  · rw [h2]; rfl
  · rw [h1, h2]
    intro h
    have := List.head?_eq_head (l := [{ optionAlpha with recommended := true },
      optionBeta]) (by simp)
    have hheads : ({ optionAlpha with recommended := true } : MandiOption) =
        { optionBeta with recommended := true } := by
      injection h
    have : optionAlpha.mandi_name = optionBeta.mandi_name := by
      rw [show optionAlpha.mandi_name =
        ({ optionAlpha with recommended := true } : MandiOption).mandi_name
        from rfl, hheads]
    simp [optionAlpha, optionBeta] at this

/-- Strict descending order on net profit, antisymmetric by asymmetry. -/
def npGT (a b : MandiOption) : Prop := b.net_profit < a.net_profit

instance : IsAntisymm MandiOption npGT :=
  ⟨fun _ _ h1 h2 => absurd (lt_trans h1 h2) (lt_irrefl _)⟩

/-- C8 amended: the ranking is a deterministic function of the input
sequence, sorted by net profit descending with ties keeping original input
order; when the net profits of the candidates are pairwise distinct, any two
input orderings of the same candidates yield identical ranked output (hence
the same recommended location). -/
theorem ranking_permutation_invariant_of_distinct (l₁ l₂ : List MandiOption)
    (hperm : l₁.Perm l₂)
    (hnd : (l₁.map (fun o => o.net_profit)).Nodup) :
    rankOptions l₁ = rankOptions l₂ := by
  suffices hs : sortByNetProfit l₁ = sortByNetProfit l₂ by
    unfold rankOptions
    rw [hs]
  have hp1 : List.Perm (sortByNetProfit l₁) l₁ := List.perm_insertionSort npGE l₁
  have hp2 : List.Perm (sortByNetProfit l₂) l₂ := List.perm_insertionSort npGE l₂
  have hperm' : List.Perm (sortByNetProfit l₁) (sortByNetProfit l₂) :=
    hp1.trans (hperm.trans hp2.symm)
  have hstrict : ∀ (l : List MandiOption), List.Pairwise npGE l →
      ((l.map (fun o => o.net_profit)).Nodup) → List.Pairwise npGT l := by
    intro l hpw hnd'
    have hne : List.Pairwise (fun a b => a.net_profit ≠ b.net_profit) l :=
      List.pairwise_map.mp hnd'
    exact (hpw.and hne).imp (fun hab => lt_of_le_of_ne hab.1 hab.2.symm)
  have hnd1 : ((sortByNetProfit l₁).map (fun o => o.net_profit)).Nodup :=
    ((hp1.map _).nodup_iff).mpr hnd
  have hnd2 : ((sortByNetProfit l₂).map (fun o => o.net_profit)).Nodup :=
    ((hp2.map _).nodup_iff).mpr (((hperm.map _).nodup_iff).mp hnd)
  exact List.eq_of_perm_of_sorted (r := npGT) hperm'
    (hstrict _ (List.sorted_insertionSort npGE l₁) hnd1)
    (hstrict _ (List.sorted_insertionSort npGE l₂) hnd2)

/-- C8 amended witness: two candidates with distinct net profits 650 and 640,
in either input order, rank identically. -/
theorem ranking_permutation_invariant_witness :
    [optionAlpha, ⟨"M3", "Gamma", 10, 12, 1000, 360, 640, 64, false⟩].Perm
      [⟨"M3", "Gamma", 10, 12, 1000, 360, 640, 64, false⟩, optionAlpha] ∧
    (([optionAlpha, ⟨"M3", "Gamma", 10, 12, 1000, 360, 640, 64, false⟩].map
      (fun o => o.net_profit)).Nodup) ∧
    rankOptions [optionAlpha,
        ⟨"M3", "Gamma", 10, 12, 1000, 360, 640, 64, false⟩] =
      rankOptions [⟨"M3", "Gamma", 10, 12, 1000, 360, 640, 64, false⟩,
        optionAlpha] := by
  have hnd : ([optionAlpha,
      ⟨"M3", "Gamma", 10, 12, 1000, 360, 640, 64, false⟩].map
      (fun o => o.net_profit)).Nodup := by
    simp [optionAlpha]
  exact ⟨List.Perm.swap _ _ [], hnd,
    ranking_permutation_invariant_of_distinct _ _ (List.Perm.swap _ _ []) hnd⟩

/-!
Claim C5 theorems.  The deterministic mapping, speeds, cost formula and the
500 km scenario all hold; the feasibility condition however is not exactly
the claimed one: line 126 tests the window with Python truthiness
(if availability_window_hours and ...), so a window of 0 hours never marks
the delivery infeasible even when the estimated hours exceed it.
-/

/-- Helper: the window flag is set exactly for a provided non-zero window
that the estimated hours exceed. -/
theorem windowExceeded_iff (hours : ℚ) (window : Option ℚ) :
    windowExceeded hours window = true ↔
      ∃ w, window = some w ∧ w ≠ 0 ∧ hours > w := by
  cases window with
  | none => simp [windowExceeded]
  | some w =>
    simp only [windowExceeded, Bool.and_eq_true, decide_eq_true_eq,
      Option.some.injEq]
    constructor
    · rintro ⟨h1, h2⟩
      exact ⟨w, rfl, h1, h2⟩
    · rintro ⟨w', hw', h1, h2⟩
      cases hw'
      exact ⟨h1, h2⟩

/-- Helper: the critical-freshness flag is set exactly for score below 20
with more than six estimated hours. -/
theorem criticalLate_iff (score hours : ℚ) :
    criticalLate score hours = true ↔ score < 20 ∧ hours > 6 := by
  simp [criticalLate]

/-- C5 counterexample: with a provided availability window of 0 hours and an
estimated delivery time of 1 hour (distance 70 at refrigerated speed 70), the
estimated hours exceed the window, yet the result is feasible: the claimed
"infeasible exactly when the estimated hours exceed the availability window"
is false at this input, because line 126 treats a zero window as falsy. -/
theorem zero_window_still_feasible_cex :
    (recommendDeliveryMode 50 "FAIR" 70 10 (some 0)).estimated_hours = 1 ∧
    (recommendDeliveryMode 50 "FAIR" 70 10 (some 0)).estimated_hours > 0 ∧
    (recommendDeliveryMode 50 "FAIR" 70 10 (some 0)).feasible = true := by
  have hh : (recommendDeliveryMode 50 "FAIR" 70 10
      (some 0)).estimated_hours = 1 := by
    show estimatedHours "FAIR" 70 = 1
    rw [estimatedHours, show requiredMode "FAIR" = "refrigerated" from by decide,
      show speedOf "refrigerated" = (70:ℚ) from by decide]
    norm_num
  refine ⟨hh, by rw [hh]; norm_num, ?_⟩
  show feasibleFlag 50 (estimatedHours "FAIR" 70) (some 0) = true
  rw [show estimatedHours "FAIR" 70 = 1 from hh]
  rw [feasibleFlag, windowExceeded]
  norm_num [criticalLate]

/-- C5 amended: delivery mode and urgency are the claimed deterministic
mapping of the freshness level, estimated hours are distance over the mode
speed with speeds 60 / 70 / 80, the cost is
(distance * 0.5 + quantity * 0.1) times the mode multiplier 1.5 / 1.3 / 1.0,
the result is never an exception and is infeasible (with a non-empty list of
explanatory notes) exactly when a provided NON-ZERO availability window is
exceeded by the estimated hours, or the freshness score is below 20 and the
estimated hours exceed 6 (a zero window is ignored by the truthiness test of
line 126); in particular 500 km at cold-chain speed 60 gives reported hours
8.33, and with a 6-hour window the result is infeasible with the
exceeded-window note. -/
theorem delivery_mode_deterministic_map (score : ℚ) (level : String)
    (dist qty : ℚ) (window : Option ℚ) :
    ((level = "POOR" ∨ level = "CRITICAL") →
      (recommendDeliveryMode score level dist qty window).recommended_delivery_mode =
        "cold_chain" ∧
      (recommendDeliveryMode score level dist qty window).urgency =
        "IMMEDIATE") ∧
    (level = "FAIR" →
      (recommendDeliveryMode score level dist qty window).recommended_delivery_mode =
        "refrigerated" ∧
      (recommendDeliveryMode score level dist qty window).urgency = "HIGH") ∧
    (level = "GOOD" →
      (recommendDeliveryMode score level dist qty window).recommended_delivery_mode =
        "refrigerated" ∧
      (recommendDeliveryMode score level dist qty window).urgency = "NORMAL") ∧
    (level = "EXCELLENT" →
      (recommendDeliveryMode score level dist qty window).recommended_delivery_mode =
        "standard" ∧
      (recommendDeliveryMode score level dist qty window).urgency = "NORMAL") ∧
    (recommendDeliveryMode score level dist qty window).estimated_hours =
      dist / speedOf
        ((recommendDeliveryMode score level dist qty window).recommended_delivery_mode) ∧
    speedOf "cold_chain" = 60 ∧ speedOf "refrigerated" = 70 ∧
    speedOf "standard" = 80 ∧
    ((recommendDeliveryMode score level dist qty window).feasible = false ↔
      ((∃ w, window = some w ∧ w ≠ 0 ∧
        (recommendDeliveryMode score level dist qty window).estimated_hours > w) ∨
       (score < 20 ∧
        (recommendDeliveryMode score level dist qty window).estimated_hours > 6))) ∧
    ((recommendDeliveryMode score level dist qty window).feasible = false →
      (recommendDeliveryMode score level dist qty window).feasibility_notes ≠
        []) ∧
    (recommendDeliveryMode score level dist qty window).estimated_cost =
      pyRound2 ((dist * (1/2) + qty * (1/10)) * costMultiplier
        ((recommendDeliveryMode score level dist qty window).recommended_delivery_mode)) ∧
    costMultiplier "cold_chain" = 3/2 ∧ costMultiplier "refrigerated" = 13/10 ∧
    costMultiplier "standard" = 1 ∧
    (recommendDeliveryMode 25 "POOR" 500 100 (some 6)).reported_hours =
      833/100 ∧
    (recommendDeliveryMode 25 "POOR" 500 100 (some 6)).feasible = false ∧
    (recommendDeliveryMode 25 "POOR" 500 100 (some 6)).feasibility_notes =
      [FeasibilityNote.exceedsWindow (500/60)] := by
  have hb : ∀ b : Bool, (!b) = false → b = true := by
    intro b h
    cases b
    · exact absurd h (by norm_num)
    · rfl
  have hh500 : estimatedHours "POOR" 500 = 500/60 := by
    rw [estimatedHours, show requiredMode "POOR" = "cold_chain" from by decide,
      show speedOf "cold_chain" = (60:ℚ) from by decide]
  refine ⟨?_, ?_, ?_, ?_, rfl, by decide, by decide, by decide, ?_, ?_, rfl,
    by rw [costMultiplier, if_pos rfl],
    by rw [costMultiplier, if_neg (by decide), if_pos rfl],
    by rw [costMultiplier, if_neg (by decide), if_neg (by decide)], ?_, ?_, ?_⟩
  · intro h
    constructor
    · show requiredMode level = "cold_chain"
      rw [requiredMode, if_pos h]
    · show urgencyOf level = "IMMEDIATE"
      rw [urgencyOf, if_pos h]
  · intro h
    subst h
    exact ⟨rfl, rfl⟩
  · intro h
    subst h
    exact ⟨rfl, rfl⟩
  · intro h
    subst h
    exact ⟨rfl, rfl⟩
  · show feasibleFlag score (estimatedHours level dist) window = false ↔
      (∃ w, window = some w ∧ w ≠ 0 ∧ estimatedHours level dist > w) ∨
      (score < 20 ∧ estimatedHours level dist > 6)
    rw [feasibleFlag]
    constructor
    · intro hf
      rcases Bool.and_eq_false_iff.mp hf with h | h
      · exact Or.inl ((windowExceeded_iff _ _).mp (hb _ h))
      · exact Or.inr ((criticalLate_iff _ _).mp (hb _ h))
    · intro hcase
      rcases hcase with h | h
      · rw [(windowExceeded_iff _ _).mpr h]
        rfl
      · rw [(criticalLate_iff _ _).mpr h]
        simp
  · show feasibleFlag score (estimatedHours level dist) window = false →
      notesOf score (estimatedHours level dist) window ≠ []
    intro hf
    rw [feasibleFlag] at hf
    rw [notesOf]
    rcases Bool.and_eq_false_iff.mp hf with h | h
    · rw [hb _ h]
      simp
    · rw [hb _ h]
      simp
  · show pyRound2 (estimatedHours "POOR" 500) = 833/100
    rw [hh500, pyRound2_eq 833 (500/60) (by norm_num) (by norm_num)]
    norm_num
  · show feasibleFlag 25 (estimatedHours "POOR" 500) (some 6) = false
    rw [hh500, feasibleFlag, windowExceeded]
    norm_num
  · show notesOf 25 (estimatedHours "POOR" 500) (some 6) =
      [FeasibilityNote.exceedsWindow (500/60)]
    rw [hh500, notesOf, windowExceeded]
    norm_num [criticalLate]

/-- C5 amended witness at the scenario input: level POOR gives cold_chain and
IMMEDIATE, and 500 km at a 6-hour window gives reported hours 8.33. -/
theorem delivery_mode_deterministic_map_witness :
    (("POOR" : String) = "POOR" ∨ ("POOR" : String) = "CRITICAL") ∧
    (recommendDeliveryMode 25 "POOR" 500 100
      (some 6)).recommended_delivery_mode = "cold_chain" ∧
    (recommendDeliveryMode 25 "POOR" 500 100 (some 6)).urgency =
      "IMMEDIATE" ∧
    (recommendDeliveryMode 25 "POOR" 500 100 (some 6)).reported_hours =
      833/100 :=
  ⟨Or.inl rfl,
   ((delivery_mode_deterministic_map 25 "POOR" 500 100 (some 6)).1
     (Or.inl rfl)).1,
   ((delivery_mode_deterministic_map 25 "POOR" 500 100 (some 6)).1
     (Or.inl rfl)).2,
   (delivery_mode_deterministic_map 25 "POOR" 500 100
     (some 6)).2.2.2.2.2.2.2.2.2.2.2.2.2.2.1⟩

/-!
Claim C6 theorems.  Revenue, transport cost, net profit and the profit gap
are as claimed; the stored profit margin however is a percentage
(net_profit / revenue * 100, computed at line 369 and stored in
profit_margin_percent), not the claimed ratio net_profit / revenue, and the
guard is revenue > 0, not revenue = 0.
-/

/-- Profit margin as worded in claim C6: net_profit / revenue, 0 when the
revenue is 0. -/
def claimProfitMargin (revenue net : ℚ) : ℚ :=
  if revenue = 0 then 0 else net / revenue

/-- Profit margin as the code computes it, worded for the amended claim: 100
times the ratio when the revenue is positive, 0 otherwise. -/
def claimProfitMarginPct (revenue net : ℚ) : ℚ :=
  if 0 < revenue then 100 * (net / revenue) else 0

/-- C6 counterexample: at price 10, quantity 100, distance 0 (rate 3.5) the
revenue is 1000 and the net profit 1000, the stored margin is 100 while the
claimed ratio net_profit / revenue is 1: the claimed margin equation is false
at this input. -/
theorem profit_margin_ratio_cex :
    (computeFinancials 10 100 0 (7/2)).profit_margin = 100 ∧
    claimProfitMargin (computeFinancials 10 100 0 (7/2)).revenue
      (computeFinancials 10 100 0 (7/2)).net_profit = 1 ∧
    (computeFinancials 10 100 0 (7/2)).profit_margin ≠
      claimProfitMargin (computeFinancials 10 100 0 (7/2)).revenue
        (computeFinancials 10 100 0 (7/2)).net_profit := by
  have h1 : (computeFinancials 10 100 0 (7/2)).profit_margin = 100 := by
    show (if (10:ℚ) * 100 > 0 then (10 * 100 - 0 * (7/2) * (100/100)) /
      (10 * 100) * 100 else 0) = 100
    norm_num
  have h2 : claimProfitMargin (computeFinancials 10 100 0 (7/2)).revenue
      (computeFinancials 10 100 0 (7/2)).net_profit = 1 := by
    show claimProfitMargin (10 * 100) (10 * 100 - 0 * (7/2) * (100/100)) = 1
    rw [claimProfitMargin]
    norm_num
  exact ⟨h1, h2, by rw [h1, h2]; norm_num⟩

/-- C6 amended: for each candidate location the computation of lines 365-369
gives revenue = price * quantity, transport_cost = distance * rate *
(quantity / 100), net_profit = revenue - transport_cost, and the stored
margin equals 100 * (net_profit / revenue) for positive revenue and 0
otherwise (a percentage, stored in profit_margin_percent); when two options
are ranked, the reported profit gap is first minus last net profit, and for
stored net profits 10475 and 3500 (either input order) it is exactly 6975. -/
theorem market_financials_formulas (price qty dist rate : ℚ) :
    (computeFinancials price qty dist rate).revenue = price * qty ∧
    (computeFinancials price qty dist rate).transport_cost =
      dist * rate * (qty / 100) ∧
    (computeFinancials price qty dist rate).net_profit =
      (computeFinancials price qty dist rate).revenue -
      (computeFinancials price qty dist rate).transport_cost ∧
    (computeFinancials price qty dist rate).profit_margin =
      claimProfitMarginPct (computeFinancials price qty dist rate).revenue
        (computeFinancials price qty dist rate).net_profit ∧
    (∀ a b : MandiOption, a.net_profit = 10475 → b.net_profit = 3500 →
      profitGapOf (rankOptions [a, b]) = .gap 6975 ∧
      profitGapOf (rankOptions [b, a]) = .gap 6975) := by
  refine ⟨rfl, rfl, rfl, ?_, ?_⟩
  · show (if price * qty > 0 then
        (price * qty - dist * rate * (qty/100)) / (price * qty) * 100 else 0) =
      claimProfitMarginPct (price * qty) (price * qty - dist * rate * (qty/100))
    rw [claimProfitMarginPct]
    by_cases h : 0 < price * qty
    · rw [if_pos h, if_pos h]
      ring
    · rw [if_neg h, if_neg h]
  · intro a b ha hb
    have hab : npGE a b := by
      show b.net_profit ≤ a.net_profit
      rw [ha, hb]
      norm_num
    have hnba : ¬npGE b a := by
      show ¬a.net_profit ≤ b.net_profit
      rw [ha, hb]
      norm_num
    have hs1 : rankOptions [a, b] = [{ a with recommended := true }, b] := by
      unfold rankOptions sortByNetProfit markBest
      rw [show List.insertionSort npGE [a, b] =
        List.orderedInsert npGE a [b] from rfl]
      rw [List.orderedInsert, if_pos hab]
    have hs2 : rankOptions [b, a] = [{ a with recommended := true }, b] := by
      unfold rankOptions sortByNetProfit markBest
      rw [show List.insertionSort npGE [b, a] =
        List.orderedInsert npGE b [a] from rfl]
      rw [List.orderedInsert, if_neg hnba]
      rw [show List.orderedInsert npGE b [] = [b] from rfl]
    constructor
    · rw [hs1]
      show ProfitGap.gap (a.net_profit - b.net_profit) = ProfitGap.gap 6975
      rw [ha, hb]
      norm_num
    · rw [hs2]
      show ProfitGap.gap (a.net_profit - b.net_profit) = ProfitGap.gap 6975
      rw [ha, hb]
      norm_num

/-- C6 amended witness: concrete options with net profits 10475 and 3500
report the gap 6975. -/
theorem market_financials_formulas_witness :
    (⟨"M1", "BestMandi", 0, 0, 0, 0, 10475, 0, false⟩ : MandiOption).net_profit =
      10475 ∧
    (⟨"M2", "WorstMandi", 0, 0, 0, 0, 3500, 0, false⟩ : MandiOption).net_profit =
      3500 ∧
    profitGapOf (rankOptions [⟨"M1", "BestMandi", 0, 0, 0, 0, 10475, 0, false⟩,
      ⟨"M2", "WorstMandi", 0, 0, 0, 0, 3500, 0, false⟩]) = .gap 6975 :=
  ⟨rfl, rfl,
   ((market_financials_formulas 0 0 0 0).2.2.2.2
     ⟨"M1", "BestMandi", 0, 0, 0, 0, 10475, 0, false⟩
     ⟨"M2", "WorstMandi", 0, 0, 0, 0, 3500, 0, false⟩ rfl rfl).1⟩

/-!
Claim C9 theorems (spec-modelled: the MarketAgent class with the
determine_best_price method called by the orchestrator is not under src/, so
the pricer is modelled from spec section 4.2 (a)).
-/

/-- C9 (spec-modelled): when market statistics exist, the recommended price
equals average_price times the freshness, demand, urgency and quantity
multipliers, and the freshness multiplier is the step table 1.20 for score at
least 80, 1.10 at least 60, 0.95 at least 40, 0.75 at least 20, else 0.50. -/
theorem price_multiplier_formula (score qty : ℚ) (s : MarketStats)
    (urgency : Option String) :
    (determineBestPrice score qty (some s) urgency).recommended_price =
      some (s.average_price * freshnessMultiplier score * demandMultiplier s *
        urgencyMultiplier urgency * quantityMultiplier qty) ∧
    (80 ≤ score → freshnessMultiplier score = 6/5) ∧
    (60 ≤ score ∧ score < 80 → freshnessMultiplier score = 11/10) ∧
    (40 ≤ score ∧ score < 60 → freshnessMultiplier score = 19/20) ∧
    (20 ≤ score ∧ score < 40 → freshnessMultiplier score = 3/4) ∧
    (score < 20 → freshnessMultiplier score = 1/2) := by
  refine ⟨rfl, ?_, ?_, ?_, ?_, ?_⟩
  · intro h
    rw [freshnessMultiplier, if_pos h]
  · rintro ⟨h1, h2⟩
    rw [freshnessMultiplier, if_neg (by linarith), if_pos h1]
  · rintro ⟨h1, h2⟩
    rw [freshnessMultiplier, if_neg (by linarith), if_neg (by linarith),
      if_pos h1]
  · rintro ⟨h1, h2⟩
    rw [freshnessMultiplier, if_neg (by linarith), if_neg (by linarith),
      if_neg (by linarith), if_pos h1]
  · intro h
    rw [freshnessMultiplier, if_neg (by linarith), if_neg (by linarith),
      if_neg (by linarith), if_neg (by linarith)]

/-- C9 witness: score 85, quantity 10, average price 100, demand 5 over
supply 4, no urgency: the price is 100 * 1.20 * 1.15 * 1.0 * 1.0 = 138. -/
theorem price_multiplier_formula_witness :
    (80 : ℚ) ≤ 85 ∧
    (determineBestPrice 85 10 (some ⟨100, 5, 4⟩) none).recommended_price =
      some ((100 : ℚ) * freshnessMultiplier 85 * demandMultiplier ⟨100, 5, 4⟩ *
        urgencyMultiplier none * quantityMultiplier 10) ∧
    freshnessMultiplier 85 = 6/5 :=
  ⟨by norm_num, (price_multiplier_formula 85 10 ⟨100, 5, 4⟩ none).1,
   (price_multiplier_formula 85 10 ⟨100, 5, 4⟩ none).2.1 (by norm_num)⟩

end NeuralRoots
